import Mathlib

/-!
Verification of the filter-and-project data pipeline of `streamlit_app.py`.

The pipeline (lines 45-179 of the source) is embedded shallowly:
cell values become an inductive `Value` type, a pandas DataFrame becomes
`DataFrame` (column names, pandas dtypes frozen at load time, row-major
data), and each pipeline stage becomes a Lean function named after the
source construct it embeds.  Python exceptions raised by the stages
(KeyError from column lookup, IndexError from positional indexing,
library parse exceptions) are modelled with `Except PipeErr`.
-/

/-- Cell values of a loaded table: pandas cells are Python ints, floats
(modelled as rationals), strings, booleans, or missing values (NaN/None,
modelled as `null`). -/
inductive Value where
  | int (n : Int)
  | float (q : Rat)
  | str (s : String)
  | bool (b : Bool)
  | null
deriving DecidableEq

/-- True on `Value.int`. -/
def Value.isInt : Value → Bool
  | .int _ => true
  | _ => false

/-- True on `Value.float`. -/
def Value.isFloat : Value → Bool
  | .float _ => true
  | _ => false

/-- True on `Value.bool`. -/
def Value.isBool : Value → Bool
  | .bool _ => true
  | _ => false

/-- True on the missing-value cell. -/
def Value.isNull : Value → Bool
  | .null => true
  | _ => false

/-- Numeric content of a value under Python numeric coercion: ints and
floats are themselves, booleans coerce to 0/1, strings and missing
values have none. -/
def Value.toRat? : Value → Option Rat
  | .int n => some (n : Rat)
  | .float q => some q
  | .bool b => some (if b then 1 else 0)
  | _ => none

/-- Equality as pandas `isin` compares cells (Python `==`): numeric kinds
compare by numeric value (`1 == 1.0 == True`), strings compare as strings,
a string never equals a number, and a missing value (NaN) equals nothing,
itself included. -/
def valueEq (a b : Value) : Bool :=
  match a, b with
  | .str x, .str y => x == y
  | _, _ =>
    match a.toRat?, b.toRat? with
    | some x, some y => x == y
    | _, _ => false

/-- Decimal-literal test for a string, modelling Python `float(s)`
acceptance on plain (optionally signed) decimal literals: surrounding
spaces, an optional sign, digits with at most one decimal point and at
least one digit. -/
def isNumericString (s : String) : Bool :=
  let cs := ((s.toList.dropWhile (fun c => c = ' ')).reverse.dropWhile
    (fun c => c = ' ')).reverse
  let cs := match cs with
    | c :: rest => if c = '+' || c = '-' then rest else cs
    | [] => []
  match cs.span (fun c => c ≠ '.') with
  | (a, []) => !a.isEmpty && a.all Char.isDigit
  | (a, _ :: b) =>
    (!a.isEmpty || !b.isEmpty) && a.all Char.isDigit && b.all Char.isDigit

/-- Spec-side definition, following the spec's glossary words "whether all
values coerce to real numbers": a value coerces to a real number when
Python `float(value)` succeeds — always for ints, floats and booleans,
for strings exactly when the string is a numeric literal, never for a
missing value. -/
def specCoercesToReal : Value → Bool
  | .int _ => true
  | .float _ => true
  | .bool _ => true
  | .str s => isNumericString s
  | .null => false

/-- Pandas column dtypes relevant to the app: `select_dtypes` on line 74
keys on `float64`/`int64`; boolean and object (text/mixed) columns fall
outside that selection. -/
inductive Dtype where
  | int64
  | float64
  | boolD
  | object
deriving DecidableEq

/-- Dtypes admitted by `select_dtypes(include=['float64', 'int64'])`. -/
def Dtype.isNumeric : Dtype → Bool
  | .int64 => true
  | .float64 => true
  | _ => false

/-- Pandas dtype inference for a loaded column's cells: all ints gives
`int64`; ints/floats with possible missing values gives `float64`; all
booleans gives `bool`; anything containing text or mixed kinds (and the
empty column) is `object`. -/
def inferDtype (vs : List Value) : Dtype :=
  if vs.isEmpty then .object
  else if vs.all Value.isInt then .int64
  else if vs.all (fun v => v.isInt || v.isFloat || v.isNull) then .float64
  else if vs.all Value.isBool then .boolD
  else .object

/-- Failure kinds of the pipeline.  The first three are the Python
exceptions the source actually raises (all caught by the blanket
`except Exception` on line 178); the last three are the spec's error
taxonomy (`UnsupportedFormat`, `EmptyResult`, `InvalidRange`), included
so claims about them are statable — the code produces none of them. -/
inductive PipeErr where
  | keyError (key : String)
  | indexError
  | parseFailure (msg : String)
  | unsupportedFormat
  | emptyResult
  | invalidRange
deriving DecidableEq

/-- A loaded pandas DataFrame: ordered column names, the pandas dtype of
each column (inferred at load time and unchanged by row filtering), and
row-major cell data. -/
structure DataFrame where
  colNames : List String
  dtypes : List Dtype
  rows : List (List Value)
deriving DecidableEq

/-- Builds the DataFrame a load produces from column-major data: dtypes
are inferred per column and the cells are transposed into rows. -/
def mkDataFrame (cols : List (String × List Value)) : DataFrame :=
  { colNames := cols.map Prod.fst
    dtypes := cols.map (fun c => inferDtype c.2)
    rows := (cols.map Prod.snd).transpose }

/-- Shape well-formedness: every row has one cell per column. -/
def DataFrame.wf (df : DataFrame) : Bool :=
  df.rows.all (fun r => r.length == df.colNames.length)

/-- Position of a column label, as pandas label lookup finds it. -/
def DataFrame.colIndex (df : DataFrame) (c : String) : Option Nat :=
  df.colNames.findIdx? (fun n => n = c)

/-- Cell of a row at a column position. -/
def rowVal (i : Nat) (r : List Value) : Value :=
  r.getD i Value.null

/-- Embeds `df.dropna()` (line 48): rows containing any missing value are
removed; column names and dtypes are untouched. -/
def dropna (df : DataFrame) : DataFrame :=
  { df with rows := df.rows.filter (fun r => !(r.any Value.isNull)) }

/-- Embeds `df.select_dtypes(include=['float64', 'int64']).columns`
(lines 51-52 and 74): the labels whose dtype is float64 or int64, in
column order. -/
def numericCols (df : DataFrame) : List String :=
  ((df.colNames.zip df.dtypes).filter (fun p => p.2.isNumeric)).map Prod.fst

/-- Numeric/Categorical classification of a column. -/
inductive ColClass where
  | numeric
  | categorical
deriving DecidableEq

/-- Column classification as the app performs it: a column is Numeric
exactly when its pandas dtype is float64 or int64 (the dtype selection
of line 74); every other column is Categorical. -/
def classify (df : DataFrame) : List (String × ColClass) :=
  (df.colNames.zip df.dtypes).map
    (fun p => (p.1, if p.2.isNumeric then ColClass.numeric else ColClass.categorical))

/-- Class a single column's cells receive under the app's dtype-based
classification. -/
def colClassOf (vs : List Value) : ColClass :=
  if (inferDtype vs).isNumeric then ColClass.numeric else ColClass.categorical

/-- One step of pandas `unique()`: a value is added (front of the
reversed accumulator) unless an equal value was already seen. -/
def uniqueStep (acc : List Value) (v : Value) : List Value :=
  if acc.any (fun w => valueEq w v) then acc else v :: acc

/-- Embeds pandas `unique()` (line 57): distinct values of a list in
order of first appearance, deduplicated under pandas equality. -/
def uniqueVals (vs : List Value) : List Value :=
  (vs.foldl uniqueStep []).reverse

/-- Embeds `df["Status"].unique()` (lines 57 and 63): KeyError when the
label is absent, else the distinct values of the column. -/
def colUnique (df : DataFrame) (c : String) : Except PipeErr (List Value) :=
  match df.colIndex c with
  | none => .error (.keyError c)
  | some i => .ok (uniqueVals (df.rows.map (rowVal i)))

/-- Row filter of `df[df["Status"].isin(selected_status)]` (line 71):
keeps the rows whose cell at column position `i` equals (pandas
equality) some accepted value. -/
def filterRows (rows : List (List Value)) (i : Nat) (accepted : List Value) :
    List (List Value) :=
  rows.filter (fun r => accepted.any (fun w => valueEq w (rowVal i r)))

/-- Embeds line 71, `filtered_df = df[df["Status"].isin(selected_status)]`:
KeyError when the Status label is absent (unreachable after line 57
succeeded), else the row-filtered frame with the same columns and
dtypes. -/
def filterStatus (df : DataFrame) (accepted : List Value) :
    Except PipeErr DataFrame :=
  match df.colIndex "Status" with
  | none => .error (.keyError "Status")
  | some i => .ok { df with rows := filterRows df.rows i accepted }

/-- Embeds the default-axis expressions of lines 51-52, for example
`"30.9" if "30.9" in df.columns else
df.select_dtypes(include=['float64', 'int64']).columns[0]`: the preferred
label whenever it occurs among the columns (its dtype is not consulted),
else the first numeric column, else the IndexError that `.columns[0]`
raises on an empty index. -/
def default_axis (df : DataFrame) (pref : String) : Except PipeErr String :=
  if pref ∈ df.colNames then .ok pref
  else
    match (numericCols df).head? with
    | some c => .ok c
    | none => .error .indexError

/-- Embeds `numeric_cols.get_loc(label)` (lines 75-77): position of a
label in the numeric-column index, KeyError when absent. -/
def get_loc (cols : List String) (c : String) : Except PipeErr Nat :=
  match cols.findIdx? (fun n => n = c) with
  | none => .error (.keyError c)
  | some i => .ok i

/-- Outcome of the rendering branch at lines 87-169: a chart is drawn
when the filtered frame is nonempty, otherwise the "No data available
for the selected statuses" warning (line 169). -/
inductive RenderOutcome where
  | charted
  | warningNoData
deriving DecidableEq

/-- Data the pipeline hands the renderer: the filtered frame, the numeric
column labels, the default axis selections of the three selectboxes
(lines 75-77), the Status domain (line 63), and which rendering branch
ran. -/
structure ViewResult where
  filtered : DataFrame
  ncols : List String
  xAxis : String
  yAxis : String
  zAxis : String
  statusDomain : List Value
  outcome : RenderOutcome
deriving DecidableEq

/-- Embeds the body of the `try` block, lines 48-177, on an already
loaded frame: dropna, default axes (lines 51-52), Status domain
(line 57, the first Status access — raising KeyError when the column is
absent), status filter (line 71), numeric columns and axis selectboxes
at their default selections (lines 74-77), then the render branch
(lines 87-169).  `selected` is the accepted-value set assembled from the
status checkboxes (lines 64-68).  Any raised exception aborts the chain
with no partial result, as the blanket handler of line 178 would
receive it. -/
def processTable (df0 : DataFrame) (selected : List Value) :
    Except PipeErr ViewResult :=
  let df := dropna df0
  match default_axis df "30.9" with
  | .error e => .error e
  | .ok dx =>
    match default_axis df "89.6" with
    | .error e => .error e
    | .ok dy =>
      match colUnique df "Status" with
      | .error e => .error e
      | .ok statuses =>
        match filterStatus df selected with
        | .error e => .error e
        | .ok filtered =>
          let ncols := numericCols df
          match get_loc ncols dx with
          | .error e => .error e
          | .ok xi =>
            match get_loc ncols dy with
            | .error e => .error e
            | .ok yi =>
              let zi := match ncols.findIdx? (fun n => n = "RPM") with
                | some j => j
                | none => 0
              .ok { filtered := filtered
                    ncols := ncols
                    xAxis := ncols.getD xi ""
                    yAxis := ncols.getD yi ""
                    zAxis := ncols.getD zi ""
                    statusDomain := statuses
                    outcome := if filtered.rows.isEmpty then
                        RenderOutcome.warningNoData
                      else RenderOutcome.charted }

/-- An uploaded file as the loader sees it: its name, and what the two
delegated readers would make of its bytes (`pd.read_csv` and
`pd.read_excel` parse content, not extensions; parsing itself is the
library's and is carried abstractly as its result). -/
structure UploadedFile where
  name : String
  asCsv : Except String DataFrame
  asExcel : Except String DataFrame

/-- Suffix test on lowercased text, embedding
`file.name.lower().endswith('.csv')` (line 24). -/
def lowerEndsWithCsv (name : String) : Bool :=
  ".csv".toList.isSuffixOf (name.toList.map Char.toLower)

/-- Embeds `load_data` (lines 23-27): a name ending in `.csv`
(case-insensitively) goes to the CSV reader, every other name goes to
the Excel reader; a reader failure surfaces as that library's parse
exception.  No extension check rejects unsupported formats. -/
def load_data (f : UploadedFile) : Except PipeErr DataFrame :=
  if lowerEndsWithCsv f.name then f.asCsv.mapError PipeErr.parseFailure
  else f.asExcel.mapError PipeErr.parseFailure

/-- Full pipeline per upload: load (line 47) then the `try`-block body. -/
def runPipeline (f : UploadedFile) (selected : List Value) :
    Except PipeErr ViewResult :=
  match load_data f with
  | .error e => .error e
  | .ok df0 => processTable df0 selected

/-- Embeds matplotlib `ax.set_xlim(lo, hi)` / `ax.set_ylim` and plotly
`range_x` / `range_y` (lines 104-105 and 121-122): the requested pair is
applied verbatim; no clamping to the data range and no failure. -/
def set_xlim (requestedMin requestedMax : Rat) : Rat × Rat :=
  (requestedMin, requestedMax)

/-- Axis range the 2D scatter and 3D scatter branches actually apply
(lines 104-105, 121-122): the fixed pair `(-70, -20)`, whatever the
data. -/
def scatterXLim : Rat × Rat := set_xlim (-70) (-20)

/-- Least value of a numeric column. -/
def listMin : List Rat → Option Rat
  | [] => none
  | v :: vs => some ((listMin vs).elim v (min v))

/-- Greatest value of a numeric column. -/
def listMax : List Rat → Option Rat
  | [] => none
  | v :: vs => some ((listMax vs).elim v (max v))

/-- Spec-side definition, following the spec's words for
`clampRange(column, requestedMin, requestedMax)`: both bounds are clamped
to `[actualMin(column), actualMax(column)]`, and the result is
`InvalidRange` when the clamped minimum exceeds the clamped maximum (an
empty column has no actual bounds and is treated as invalid). -/
def spec_clampRange (col : List Rat) (reqMin reqMax : Rat) :
    Except PipeErr (Rat × Rat) :=
  match listMin col, listMax col with
  | some lo, some hi =>
    let emin := min (max reqMin lo) hi
    let emax := min (max reqMax lo) hi
    if emax < emin then .error .invalidRange else .ok (emin, emax)
  | _, _ => .error .invalidRange

deriving instance DecidableEq for Except

/-- Example upload of the spec's scenario table: float columns "30.9" and
"89.6", an int column "RPM", and a categorical "Status" column with
values "Healthy" and "1H". -/
def exDf : DataFrame := mkDataFrame
  [("30.9", [Value.float (-30), Value.float (-40)]),
   ("89.6", [Value.float (-25), Value.float (-60)]),
   ("RPM", [Value.int 1000, Value.int 2000]),
   ("Status", [Value.str "Healthy", Value.str "1H"])]

/-- Frame `exDf` filtered to the "Healthy" rows. -/
def exOut : DataFrame :=
  { colNames := ["30.9", "89.6", "RPM", "Status"]
    dtypes := [Dtype.float64, Dtype.float64, Dtype.int64, Dtype.object]
    rows := [[Value.float (-30), Value.float (-25), Value.int 1000,
              Value.str "Healthy"]] }

/-- Table whose column labelled "30.9" holds text, next to a numeric
column. -/
def exCatPref : DataFrame := mkDataFrame
  [("30.9", [Value.str "a"]), ("B", [Value.int 1])]

/-- Table with a single column mixing an int cell and a numeric text
cell: every value coerces to a real number, yet the pandas dtype is
object. -/
def exMixed : DataFrame := mkDataFrame [("A", [Value.int 1, Value.str "2"])]

/-- Table with no "Status" column and no numeric column. -/
def exNoStatus : DataFrame := mkDataFrame [("A", [Value.str "x"])]

/-- Table with no "Status" column but with a numeric column. -/
def exNoStatusNum : DataFrame := mkDataFrame [("A", [Value.int 1])]

/-- Upload whose name is neither CSV nor Excel; both delegated readers
reject its bytes. -/
def exTxt : UploadedFile :=
  { name := "data.txt"
    asCsv := Except.error "csv parse failed"
    asExcel := Except.error "Excel file format cannot be determined" }

/-- Table whose only data row contains a missing value, so `dropna`
removes every row. -/
def exAllNull : DataFrame := mkDataFrame
  [("A", [Value.null]), ("Status", [Value.str "Healthy"])]

/-- Position returned by `findIdx?` is within the list. -/
theorem findIdx?_lt_length {α : Type} {p : α → Bool} {l : List α} {i : Nat}
    (h : l.findIdx? p = some i) : i < l.length := by
  obtain ⟨hlt, -, -⟩ := List.findIdx?_eq_some_iff_getElem.mp h
  exact hlt

/-- Pandas equality is reflexive on every non-missing value (a missing
value, like NaN, equals nothing). -/
theorem valueEq_refl {v : Value} (h : v.isNull = false) : valueEq v v = true := by
  cases v <;> simp_all [valueEq, Value.toRat?, Value.isNull]

/-- A match in the accumulator survives the rest of the `unique()`
fold. -/
theorem foldl_uniqueStep_keeps (x : Value) :
    ∀ (vs acc : List Value), acc.any (fun w => valueEq w x) = true →
      (vs.foldl uniqueStep acc).any (fun w => valueEq w x) = true
  | [], _, hacc => hacc
  | v :: vs, acc, hacc => by
    rw [List.foldl_cons]
    apply foldl_uniqueStep_keeps x vs
    unfold uniqueStep
    split_ifs with hseen
    · exact hacc
    · simp only [List.any_cons, Bool.or_eq_true]
      exact Or.inr hacc

/-- Every member of a list equal to itself under pandas equality matches
some element of the list's `unique()` set. -/
theorem mem_uniqueVals (x : Value) (hx : valueEq x x = true) (vs : List Value)
    (hmem : x ∈ vs) : (uniqueVals vs).any (fun w => valueEq w x) = true := by
  unfold uniqueVals
  rw [List.any_reverse]
  have main : ∀ (l acc : List Value), x ∈ l →
      (l.foldl uniqueStep acc).any (fun w => valueEq w x) = true := by
    intro l
    induction l with
    | nil => intro acc h; cases h
    | cons v rest ih =>
      intro acc h
      rw [List.foldl_cons]
      rcases List.mem_cons.mp h with rfl | hrest
      · by_cases hseen : acc.any (fun w => valueEq w x) = true
        · apply foldl_uniqueStep_keeps x rest
          unfold uniqueStep
          rw [if_pos hseen]
          exact hseen
        · apply foldl_uniqueStep_keeps x rest
          unfold uniqueStep
          rw [if_neg hseen]
          simp only [List.any_cons, Bool.or_eq_true]
          exact Or.inl hx
      · exact ih _ hrest
  exact main vs [] hmem

/-- Cells of a column the app's dtype selection deems numeric all coerce
to real numbers (int64 columns hold ints; float64 columns hold ints,
floats or missing values). -/
theorem inferDtype_numeric_coerce {vs : List Value}
    (h : (inferDtype vs).isNumeric = true) :
    ∀ v ∈ vs, v.isNull = false → specCoercesToReal v = true := by
  intro v hv hnull
  unfold inferDtype at h
  split_ifs at h with h0 h1 h2 h3
  · simp [Dtype.isNumeric] at h
  · have := List.all_eq_true.mp h1 v hv
    cases v <;> simp_all [Value.isInt, specCoercesToReal]
  · have := List.all_eq_true.mp h2 v hv
    cases v <;>
      simp_all [Value.isInt, Value.isFloat, Value.isNull, specCoercesToReal]
  · simp [Dtype.isNumeric] at h
  · simp [Dtype.isNumeric] at h

/-- C1: for every table with a status column, the rows of
`df[df["Status"].isin(selected_status)]` (line 71) are a subset of the
table's rows, and every kept row's status-column value equals (pandas
equality) some member of the accepted set. -/
theorem filterStatus_subset_and_status_mem
    {df : DataFrame} {i : Nat} {acc : List Value} {out : DataFrame}
    (h1 : df.colIndex "Status" = some i)
    (h2 : filterStatus df acc = Except.ok out) :
    out.rows ⊆ df.rows ∧
      ∀ r ∈ out.rows, ∃ w ∈ acc, valueEq w (rowVal i r) = true := by
  unfold filterStatus at h2
  rw [h1] at h2
  cases h2
  constructor
  · exact (List.filter_sublist _).subset
  · intro r hr
    have hp := (List.mem_filter.mp hr).2
    simpa [List.any_eq_true] using hp

/-- Witness for C1 on the scenario table filtered to the "Healthy"
rows. -/
theorem filterStatus_subset_and_status_mem_witness :
    (exDf.colIndex "Status" = some 3 ∧
     filterStatus exDf [Value.str "Healthy"] = Except.ok exOut) ∧
    (exOut.rows ⊆ exDf.rows ∧
     ∀ r ∈ exOut.rows, ∃ w ∈ [Value.str "Healthy"],
       valueEq w (rowVal 3 r) = true) :=
  ⟨⟨by decide, by decide⟩,
   filterStatus_subset_and_status_mem (by decide) (by decide)⟩

/-- C9: the status filter of line 71 preserves the column labels and
dtypes of the frame and never grows the row count; the source frame is a
value the filter only reads (the embedding is a pure function of it). -/
theorem filterStatus_preserves_schema
    {df : DataFrame} {acc : List Value} {out : DataFrame}
    (h : filterStatus df acc = Except.ok out) :
    out.colNames = df.colNames ∧ out.dtypes = df.dtypes ∧
      out.rows.length ≤ df.rows.length := by
  unfold filterStatus at h
  cases hidx : df.colIndex "Status" <;> rw [hidx] at h
  · cases h
  · cases h
    exact ⟨rfl, rfl, List.length_filter_le _ _⟩

/-- Witness for C9 on the scenario table. -/
theorem filterStatus_preserves_schema_witness :
    filterStatus exDf [Value.str "Healthy"] = Except.ok exOut ∧
    (exOut.colNames = exDf.colNames ∧ exOut.dtypes = exDf.dtypes ∧
     exOut.rows.length ≤ exDf.rows.length) :=
  ⟨by decide,
   @filterStatus_preserves_schema exDf [Value.str "Healthy"] exOut (by decide)⟩

/-- C10: the rows the status filter of line 71 keeps form a subsequence
of the source rows — same relative order, same multiplicity (boolean-mask
selection in pandas is stable). -/
theorem filterStatus_rows_sublist
    {df : DataFrame} {acc : List Value} {out : DataFrame}
    (h : filterStatus df acc = Except.ok out) :
    out.rows.Sublist df.rows := by
  unfold filterStatus at h
  cases hidx : df.colIndex "Status" <;> rw [hidx] at h
  · cases h
  · cases h
    exact List.filter_sublist _

/-- Witness for C10 on the scenario table. -/
theorem filterStatus_rows_sublist_witness :
    filterStatus exDf [Value.str "Healthy"] = Except.ok exOut ∧
    exOut.rows.Sublist exDf.rows :=
  ⟨by decide,
   @filterStatus_rows_sublist exDf [Value.str "Healthy"] exOut (by decide)⟩

/-- C2 counterexample: on a table whose column labelled "30.9" holds
text, line 51 returns "30.9" — a Categorical column name — because the
membership test `"30.9" in df.columns` never consults the dtype; the
claimed rule (preferred name only when Numeric) is violated. -/
theorem default_axis_returns_categorical_cex :
    default_axis exCatPref "30.9" = Except.ok "30.9" ∧
    "30.9" ∉ numericCols exCatPref ∧
    classify exCatPref = [("30.9", ColClass.categorical),
                          ("B", ColClass.numeric)] := by
  decide

/-- C2 amended: the default-axis expression of lines 51-52 returns the
preferred name whenever it occurs among the columns, Numeric or not;
when it is absent the fallback does run: the resolution succeeds and
returns the Numeric column at the fallback index (the head of the
numeric-column index) whenever a Numeric column exists, and raises
IndexError (rather than returning None) when none does. -/
theorem default_axis_characterization (df : DataFrame) (pref : String) :
    (pref ∈ df.colNames → default_axis df pref = Except.ok pref) ∧
    (pref ∉ df.colNames →
      (∀ c rest, numericCols df = c :: rest →
        default_axis df pref = Except.ok c ∧ c ∈ numericCols df) ∧
      (numericCols df = [] →
        default_axis df pref = Except.error PipeErr.indexError)) := by
  constructor
  · intro h
    unfold default_axis
    rw [if_pos h]
  · intro h
    constructor
    · intro c rest hnc
      constructor
      · unfold default_axis
        rw [if_neg h, hnc]
        rfl
      · rw [hnc]
        exact List.mem_cons_self c rest
    · intro hnil
      unfold default_axis
      rw [if_neg h, hnil]
      rfl

/-- Witness for C2 (amended), exercising all three branches: preferred
label present (scenario table), preferred label absent with a numeric
column to fall back on, and preferred label absent with no numeric
column at all. -/
theorem default_axis_characterization_witness :
    ("30.9" ∈ exDf.colNames ∧ default_axis exDf "30.9" = Except.ok "30.9") ∧
    ("30.9" ∉ exNoStatusNum.colNames ∧
     numericCols exNoStatusNum = ["A"] ∧
     default_axis exNoStatusNum "30.9" = Except.ok "A" ∧
     "A" ∈ numericCols exNoStatusNum) ∧
    ("30.9" ∉ exNoStatus.colNames ∧ numericCols exNoStatus = [] ∧
     default_axis exNoStatus "30.9" = Except.error PipeErr.indexError) :=
  ⟨⟨by decide, (default_axis_characterization exDf "30.9").1 (by decide)⟩,
   ⟨by decide, by decide,
    (((default_axis_characterization exNoStatusNum "30.9").2 (by decide)).1
      "A" [] (by decide)).1,
    (((default_axis_characterization exNoStatusNum "30.9").2 (by decide)).1
      "A" [] (by decide)).2⟩,
   ⟨by decide, by decide,
    ((default_axis_characterization exNoStatus "30.9").2 (by decide)).2
      (by decide)⟩⟩

/-- C4 counterexample: a column mixing an int cell with the text cell
"2" has pandas dtype object, so line 74 classifies it Categorical even
though every value in it coerces to a real number — the claimed
"Numeric iff all values coerce" fails right-to-left. -/
theorem classify_coercion_cex :
    classify exMixed = [("A", ColClass.categorical)] ∧
    colClassOf [Value.int 1, Value.str "2"] = ColClass.categorical ∧
    specCoercesToReal (Value.int 1) = true ∧
    specCoercesToReal (Value.str "2") = true ∧
    (Value.int 1).isNull = false ∧ (Value.str "2").isNull = false := by
  decide

/-- C4 amended: classification is deterministic and total — every column
receives exactly one class, a pure function of its loaded cells — and a
Numeric column's non-missing cells all coerce to real numbers; the
converse direction of the claimed iff does not hold (classification
follows the pandas dtype, not value coercibility). -/
theorem classify_dtype_based (cols : List (String × List Value)) :
    classify (mkDataFrame cols) = cols.map (fun c => (c.1, colClassOf c.2)) ∧
    ∀ n vs, (n, vs) ∈ cols → colClassOf vs = ColClass.numeric →
      ∀ v ∈ vs, v.isNull = false → specCoercesToReal v = true := by
  constructor
  · simp [classify, mkDataFrame, List.zip_map', colClassOf]
  · intro n vs hmem hnum v hv hnull
    unfold colClassOf at hnum
    split_ifs at hnum with h
    exact inferDtype_numeric_coerce h v hv hnull

/-- Witness for C4 (amended) on a one-column int table. -/
theorem classify_dtype_based_witness :
    (("RPM", [Value.int 1000]) ∈ [("RPM", [Value.int 1000])] ∧
     colClassOf [Value.int 1000] = ColClass.numeric ∧
     Value.int 1000 ∈ [Value.int 1000] ∧ (Value.int 1000).isNull = false) ∧
    specCoercesToReal (Value.int 1000) = true :=
  ⟨⟨by decide, by decide, by decide, by decide⟩,
   (classify_dtype_based [("RPM", [Value.int 1000])]).2 "RPM" [Value.int 1000]
     (by decide) (by decide) (Value.int 1000) (by decide) (by decide)⟩

/-- C8: filtering the null-cleaned table by the full domain of its
status column (every value `df["Status"].unique()` reports, line 57)
keeps every row — the filter of line 71 is the identity on the
dropna-cleaned frame. -/
theorem filter_domain_identity {df0 : DataFrame} {dom : List Value}
    {out : DataFrame}
    (hwf : df0.wf = true)
    (h1 : colUnique (dropna df0) "Status" = Except.ok dom)
    (h2 : filterStatus (dropna df0) dom = Except.ok out) :
    out = dropna df0 := by
  unfold colUnique at h1
  cases hidx : (dropna df0).colIndex "Status" <;> rw [hidx] at h1
  · cases h1
  · rename_i i
    cases h1
    unfold filterStatus at h2
    rw [hidx] at h2
    cases h2
    have hi : i < df0.colNames.length := by
      have := findIdx?_lt_length (p := fun n => n = "Status")
        (l := (dropna df0).colNames) hidx
      simpa [dropna] using this
    have hall : ∀ r ∈ (dropna df0).rows,
        (uniqueVals ((dropna df0).rows.map (rowVal i))).any
          (fun w => valueEq w (rowVal i r)) = true := by
      intro r hr
      have hr0 : r ∈ df0.rows ∧ (!(r.any Value.isNull)) = true :=
        List.mem_filter.mp hr
      have hlen : r.length = df0.colNames.length := by
        have := List.all_eq_true.mp hwf r hr0.1
        simpa using this
      have hilt : i < r.length := by rw [hlen]; exact hi
      have hnn : (rowVal i r).isNull = false := by
        have hmem : rowVal i r ∈ r := by
          rw [rowVal, List.getD_eq_getElem r Value.null hilt]
          exact List.getElem_mem hilt
        have hnone : r.any Value.isNull = false := by
          simpa using hr0.2
        have := List.any_eq_false.mp hnone _ hmem
        simpa using this
      exact mem_uniqueVals (rowVal i r) (valueEq_refl hnn) _
        (List.mem_map_of_mem (rowVal i) hr)
    have heq : filterRows (dropna df0).rows i
        (uniqueVals ((dropna df0).rows.map (rowVal i))) = (dropna df0).rows := by
      unfold filterRows
      exact List.filter_eq_self.mpr hall
    rw [heq]

/-- Witness for C8 on the scenario table (no missing values, so the
cleaned table is the table itself and the domain filter returns it). -/
theorem filter_domain_identity_witness :
    (exDf.wf = true ∧
     colUnique (dropna exDf) "Status" =
       Except.ok [Value.str "Healthy", Value.str "1H"] ∧
     filterStatus (dropna exDf) [Value.str "Healthy", Value.str "1H"] =
       Except.ok exDf) ∧
    exDf = dropna exDf :=
  ⟨⟨by decide, by decide, by decide⟩,
   @filter_domain_identity exDf [Value.str "Healthy", Value.str "1H"] exDf
     (by decide) (by decide) (by decide)⟩

/-- Success of every selection-independent stage makes the whole
pipeline succeed, with the stated view: helper characterizing the
ok-path of `processTable`. -/
theorem processTable_ok {df0 : DataFrame} {dx dy : String} {xi yi : Nat}
    {dom : List Value} (selected : List Value)
    (h1 : default_axis (dropna df0) "30.9" = Except.ok dx)
    (h2 : default_axis (dropna df0) "89.6" = Except.ok dy)
    (h3 : colUnique (dropna df0) "Status" = Except.ok dom)
    (h4 : get_loc (numericCols (dropna df0)) dx = Except.ok xi)
    (h5 : get_loc (numericCols (dropna df0)) dy = Except.ok yi) :
    ∃ out, filterStatus (dropna df0) selected = Except.ok out ∧
      processTable df0 selected = Except.ok
        { filtered := out
          ncols := numericCols (dropna df0)
          xAxis := (numericCols (dropna df0)).getD xi ""
          yAxis := (numericCols (dropna df0)).getD yi ""
          zAxis := (numericCols (dropna df0)).getD
            (match (numericCols (dropna df0)).findIdx? (fun n => n = "RPM") with
              | some j => j
              | none => 0) ""
          statusDomain := dom
          outcome := if out.rows.isEmpty then RenderOutcome.warningNoData
            else RenderOutcome.charted } := by
  have hfs : ∃ out, filterStatus (dropna df0) selected = Except.ok out := by
    unfold colUnique at h3
    cases hidx : (dropna df0).colIndex "Status" <;> rw [hidx] at h3
    · cases h3
    · exact ⟨_, by unfold filterStatus; rw [hidx]⟩
  obtain ⟨out, hout⟩ := hfs
  refine ⟨out, hout, ?_⟩
  simp only [processTable, h1, h2, h3, hout, h4, h5]

/-- C5: with an empty accepted set the filter of line 71 keeps zero
rows, and — whenever the selection-independent stages succeed — the
pipeline completes normally in the "No data available for the selected
statuses" warning branch (lines 87 and 169), not in an exception. -/
theorem empty_selection_warns {df0 : DataFrame} {dx dy : String}
    {xi yi : Nat} {dom : List Value}
    (h1 : default_axis (dropna df0) "30.9" = Except.ok dx)
    (h2 : default_axis (dropna df0) "89.6" = Except.ok dy)
    (h3 : colUnique (dropna df0) "Status" = Except.ok dom)
    (h4 : get_loc (numericCols (dropna df0)) dx = Except.ok xi)
    (h5 : get_loc (numericCols (dropna df0)) dy = Except.ok yi) :
    ∃ vr, processTable df0 [] = Except.ok vr ∧
      vr.filtered.rows = [] ∧ vr.outcome = RenderOutcome.warningNoData := by
  obtain ⟨out, hout, hpt⟩ := processTable_ok [] h1 h2 h3 h4 h5
  have hrows : out.rows = [] := by
    unfold filterStatus at hout
    cases hidx : (dropna df0).colIndex "Status" <;> rw [hidx] at hout
    · cases hout
    · cases hout
      simp [filterRows]
  refine ⟨_, hpt, hrows, ?_⟩
  show (if out.rows.isEmpty = true then RenderOutcome.warningNoData
    else RenderOutcome.charted) = RenderOutcome.warningNoData
  rw [hrows]
  rfl

/-- Witness for C5 on the scenario table with nothing selected. -/
theorem empty_selection_warns_witness :
    (default_axis (dropna exDf) "30.9" = Except.ok "30.9" ∧
     default_axis (dropna exDf) "89.6" = Except.ok "89.6" ∧
     colUnique (dropna exDf) "Status" =
       Except.ok [Value.str "Healthy", Value.str "1H"] ∧
     get_loc (numericCols (dropna exDf)) "30.9" = Except.ok 0 ∧
     get_loc (numericCols (dropna exDf)) "89.6" = Except.ok 1) ∧
    (∃ vr, processTable exDf [] = Except.ok vr ∧
      vr.filtered.rows = [] ∧ vr.outcome = RenderOutcome.warningNoData) :=
  ⟨⟨by decide, by decide, by decide, by decide, by decide⟩,
   @empty_selection_warns exDf "30.9" "89.6" 0 1
     [Value.str "Healthy", Value.str "1H"] (by decide) (by decide) (by decide)
     (by decide) (by decide)⟩

/-- C6 counterexample: a Status-less table that also lacks numeric
columns fails at the default-axis lookup of line 51 (IndexError from
`.columns[0]` on an empty index) before the Status access of line 57 is
ever reached, so the failure is not the missing-column error. -/
theorem missing_status_indexerror_cex :
    "Status" ∉ exNoStatus.colNames ∧
    processTable exNoStatus [] = Except.error PipeErr.indexError ∧
    PipeErr.indexError ≠ PipeErr.keyError "Status" := by
  decide

/-- C6 amended: a table without a "Status" column always makes the
pipeline fail with an exception and no ViewResult; the failure is the
missing-column KeyError "Status" (raised at line 57) exactly when the
default-axis resolutions of lines 51-52 succeed first — a table that
also lacks numeric columns dies earlier with IndexError. -/
theorem missing_status_always_fails {df0 : DataFrame} (sel : List Value)
    (h : "Status" ∉ df0.colNames) :
    (∀ vr, processTable df0 sel ≠ Except.ok vr) ∧
    (∀ dx dy, default_axis (dropna df0) "30.9" = Except.ok dx →
      default_axis (dropna df0) "89.6" = Except.ok dy →
      processTable df0 sel = Except.error (PipeErr.keyError "Status")) := by
  have hnone : (dropna df0).colIndex "Status" = none := by
    unfold DataFrame.colIndex
    apply List.findIdx?_eq_none_iff.mpr
    intro x hx
    have hx0 : x ∈ df0.colNames := by simpa [dropna] using hx
    have hne : x ≠ "Status" := fun heq => h (heq ▸ hx0)
    simpa using hne
  have hcu : colUnique (dropna df0) "Status" =
      Except.error (PipeErr.keyError "Status") := by
    unfold colUnique
    rw [hnone]
  constructor
  · intro vr hvr
    simp only [processTable] at hvr
    cases hdx : default_axis (dropna df0) "30.9" <;> rw [hdx] at hvr
    · cases hvr
    · cases hdy : default_axis (dropna df0) "89.6" <;> rw [hdy] at hvr
      · cases hvr
      · rw [hcu] at hvr
        cases hvr
  · intro dx dy hdx hdy
    simp only [processTable, hdx, hdy, hcu]

/-- Witness for C6 (amended) on a Status-less table that does have a
numeric column, so the failure is the KeyError of line 57. -/
theorem missing_status_always_fails_witness :
    ("Status" ∉ exNoStatusNum.colNames ∧
     default_axis (dropna exNoStatusNum) "30.9" = Except.ok "A" ∧
     default_axis (dropna exNoStatusNum) "89.6" = Except.ok "A") ∧
    processTable exNoStatusNum [] = Except.error (PipeErr.keyError "Status") :=
  ⟨⟨by decide, by decide, by decide⟩,
   (missing_status_always_fails [] (by decide)).2 "A" "A" (by decide)
     (by decide)⟩

/-- C7 counterexample: a ".txt" upload is routed to the Excel reader
(lines 24-27 have no extension guard), so its failure is the reader's
generic parse exception, never a typed UnsupportedFormat; and a table
whose rows are all dropped as null-containing (line 48) is not an
EmptyResult failure — the pipeline completes in the no-data warning. -/
theorem load_no_typed_errors_cex :
    load_data exTxt =
      Except.error
        (PipeErr.parseFailure "Excel file format cannot be determined") ∧
    load_data exTxt ≠ Except.error PipeErr.unsupportedFormat ∧
    runPipeline exTxt [] =
      Except.error
        (PipeErr.parseFailure "Excel file format cannot be determined") ∧
    (dropna exAllNull).rows = [] ∧
    (processTable exAllNull [Value.str "Healthy"]).isOk = true ∧
    processTable exAllNull [Value.str "Healthy"] ≠
      Except.error PipeErr.emptyResult := by
  decide

/-- C7 amended: the loader's only failures are the delegated readers'
parse exceptions; it never produces the typed UnsupportedFormat or
EmptyResult failures (a non-CSV, non-Excel extension is simply handed to
the Excel reader, and all-null tables flow on to the empty-data
warning). -/
theorem load_failures_generic_parse (f : UploadedFile) (e : PipeErr)
    (h : load_data f = Except.error e) :
    (∃ m, e = PipeErr.parseFailure m) ∧
    e ≠ PipeErr.unsupportedFormat ∧ e ≠ PipeErr.emptyResult := by
  have hp : ∃ m, e = PipeErr.parseFailure m := by
    unfold load_data at h
    split_ifs at h
    · cases hc : f.asCsv <;> rw [hc] at h
      · rw [Except.mapError] at h
        cases h
        exact ⟨_, rfl⟩
      · cases h
    · cases hc : f.asExcel <;> rw [hc] at h
      · rw [Except.mapError] at h
        cases h
        exact ⟨_, rfl⟩
      · cases h
  obtain ⟨m, rfl⟩ := hp
  exact ⟨⟨m, rfl⟩, by simp, by simp⟩

/-- Witness for C7 (amended) on the rejected ".txt" upload. -/
theorem load_failures_generic_parse_witness :
    load_data exTxt =
      Except.error
        (PipeErr.parseFailure "Excel file format cannot be determined") ∧
    ((∃ m, PipeErr.parseFailure "Excel file format cannot be determined" =
        PipeErr.parseFailure m) ∧
     PipeErr.parseFailure "Excel file format cannot be determined" ≠
       PipeErr.unsupportedFormat ∧
     PipeErr.parseFailure "Excel file format cannot be determined" ≠
       PipeErr.emptyResult) :=
  ⟨by decide,
   load_failures_generic_parse exTxt
     (PipeErr.parseFailure "Excel file format cannot be determined")
     (by decide)⟩

/-- C3 counterexample: on a column ranging over [0, 100] the code
applies the fixed axis range (-70, -20) (lines 104-105 and 121-122),
whose bounds lie outside [actualMin, actualMax]; and a reversed request
(50, 10) passes through `set_xlim` unchanged with no InvalidRange
failure, where the spec's clampRange demands one. -/
theorem range_clamp_cex :
    scatterXLim = ((-70 : Rat), (-20 : Rat)) ∧
    listMin [(0 : Rat), 100] = some 0 ∧
    listMax [(0 : Rat), 100] = some 100 ∧
    ¬((0 : Rat) ≤ scatterXLim.1) ∧
    set_xlim 50 10 = ((50 : Rat), (10 : Rat)) ∧
    spec_clampRange [(0 : Rat), 100] 50 10 = Except.error PipeErr.invalidRange := by
  refine ⟨by decide, by decide, by decide, by decide, by decide, ?_⟩
  decide

/-- C3 amended: the code applies requested bounds verbatim through
`set_xlim` (no clamping, no InvalidRange, the call sites pass the fixed
pair (-70, -20)); this agrees with the spec's clampRange exactly on
requests already ordered and within the column's actual bounds, which
are indeed returned unchanged. -/
theorem set_xlim_agrees_with_clamp_when_within
    {col : List Rat} {lo hi a b : Rat}
    (hlo : listMin col = some lo) (hhi : listMax col = some hi)
    (h1 : lo ≤ a) (h2 : a ≤ b) (h3 : b ≤ hi) :
    spec_clampRange col a b = Except.ok (set_xlim a b) ∧
    set_xlim a b = (a, b) := by
  constructor
  · unfold spec_clampRange
    rw [hlo, hhi]
    have ha : min (max a lo) hi = a := by
      rw [max_eq_left h1]
      exact min_eq_left (h2.trans h3)
    have hb : min (max b lo) hi = b := by
      rw [max_eq_left (h1.trans h2)]
      exact min_eq_left h3
    simp only [ha, hb]
    rw [if_neg (not_lt.mpr h2)]
    rfl
  · rfl

/-- Witness for C3 (amended): the request (10, 50) on the [0, 100]
column is within bounds and survives clamping unchanged. -/
theorem set_xlim_agrees_with_clamp_when_within_witness :
    (listMin [(0 : Rat), 100] = some 0 ∧ listMax [(0 : Rat), 100] = some 100 ∧
     (0 : Rat) ≤ 10 ∧ (10 : Rat) ≤ 50 ∧ (50 : Rat) ≤ 100) ∧
    (spec_clampRange [(0 : Rat), 100] 10 50 = Except.ok (set_xlim 10 50) ∧
     set_xlim 10 50 = ((10 : Rat), (50 : Rat))) :=
  ⟨⟨by decide, by decide, by decide, by decide, by decide⟩,
   @set_xlim_agrees_with_clamp_when_within [(0 : Rat), 100] 0 100 10 50
     (by decide) (by decide) (by decide) (by decide) (by decide)⟩
